import Mathlib

/-!
Verification of the `/identify` pipeline of the plantnet_backend repository.

The repository bundles three near-duplicate Express servers in `src/server.js`
(separated by document markers).  We model the most evolved variant — the
second one (lines 193-565) — which is the one with the three-record
size-indexed placeholder fallback and the octet-stream ("Flutter")
content-type accommodation; it is the variant the specification designates
as canonical.

The embedding is a pure model of one request/response cycle:
  * `UploadedFile` models `req.file` (multer memory storage);
  * `multerStage` models the multer middleware: the `fileFilter` callback
    (consulted when the file part's headers are parsed, hence before the
    `limits.fileSize` check can fire) and the 10 MiB size limit;
  * `identifyHandler` models the `POST /identify` route handler body;
  * the two rejection branches of `processRequest` model the trailing
    error-handling middleware: a `MulterError` with code `LIMIT_FILE_SIZE`
    is mapped to 400, while the plain `Error` thrown by `fileFilter`
    falls through to the generic 500 branch;
  * `UpstreamResult` models the outcome of the single axios call
    (2xx payload, non-2xx status, timeout, or network failure — the last
    three all land in the handler's `catch` block).

JavaScript truthiness on strings (`""` is falsy) is modelled by
`jsStringOr` and `truthyKey`; absent JSON fields are modelled by `Option`.
-/

namespace Plantnet

/-! ### Character/string helpers modelling the JS string primitives used -/

/-- `listLeads p l` holds when `p` is an initial run of `l` (Boolean). -/
def listLeads : List Char → List Char → Bool
  | [], _ => true
  | _ :: _, [] => false
  | a :: as, b :: bs => a == b && listLeads as bs

/-- Models JS `s.startsWith(p)`. -/
def strStartsWith (s p : String) : Bool :=
  listLeads p.data s.data

/-- `listEndsWith l s`: `s` is a final run of `l` (Boolean). -/
def listEndsWith (l s : List Char) : Bool :=
  listLeads s.reverse l.reverse

/-- Models JS `s.toLowerCase()` (ASCII; `Char.toLower` only affects A-Z). -/
def strLower (s : String) : String :=
  String.mk (s.data.map Char.toLower)

/-- The characters after the last dot of `l` (the whole list when `l` has
no dot).  Models JS `str.split('.').pop()`. -/
def lastSegAfterDot (l : List Char) : List Char :=
  (l.reverse.takeWhile (fun c => c != '.')).reverse

/-- Models `originalname.split('.').pop()` from server.js line 292. -/
def lastExt (s : String) : String :=
  String.mk (lastSegAfterDot s.data)

/-- Models JS `x || d` for a possibly-absent string `x` (both `undefined`
and the empty string are falsy). -/
def jsStringOr (x : Option String) (d : String) : String :=
  match x with
  | some s => if s = "" then d else s
  | none => d

/-- Models `!!PLANTNET_API_KEY`: the env var is either unset or a string,
and the empty string is falsy. -/
def truthyKey : Option String → Bool
  | none => false
  | some s => s != ""

/-! ### The data model -/

/-- `req.file` as produced by multer memory storage: declared filename,
declared content type and byte length of the buffered payload. -/
structure UploadedFile where
  originalname : String
  mimetype : String
  size : Nat
deriving DecidableEq

/-- `limits.fileSize` from server.js line 213: 10 MiB. -/
def maxFileSize : Nat := 10 * 1024 * 1024

/-- The alternatives of the regex `/\.(jpg|jpeg|png|gif|bmp|webp)$/i`
(server.js line 226). -/
def imageExts : List String := ["jpg", "jpeg", "png", "gif", "bmp", "webp"]

/-- Models the regex test `/\.(jpg|jpeg|png|gif|bmp|webp)$/i.test(name)`:
the lower-cased name ends with a dot followed by one of the alternatives. -/
def hasImageExt (name : String) : Bool :=
  imageExts.any (fun e => listEndsWith (strLower name).data ('.' :: e.data))

/-- `isImageMime` from the fileFilter (server.js line 223):
`file.mimetype && file.mimetype.startsWith('image/')`. -/
def isImageMime (f : UploadedFile) : Bool :=
  strStartsWith f.mimetype "image/"

/-- `isFlutterImage` from the fileFilter (server.js lines 224-226). -/
def isFlutterImage (f : UploadedFile) : Bool :=
  f.mimetype == "application/octet-stream" &&
    f.originalname != "" && hasImageExt f.originalname

/-- The fileFilter decision (server.js line 228): accept when
`isImageMime || isFlutterImage`, otherwise call back with a plain
`Error('Только изображения разрешены')`. -/
def fileFilterAccepts (f : UploadedFile) : Bool :=
  isImageMime f || isFlutterImage f

/-- Outcome of the multer middleware for a request: hand control to the
route handler (with `req.file` possibly unset), or abort with an error
that the trailing error middleware turns into a response. -/
inductive MulterResult where
  | toHandler : Option UploadedFile → MulterResult
  | typeRejected : MulterResult
  | sizeRejected : MulterResult
deriving DecidableEq

/-- The multer middleware.  When the multipart request carries no file
part, multer succeeds and the handler sees `req.file === undefined`.
When a file part is present, `fileFilter` is consulted as soon as the
part's headers arrive — before any of its content is buffered — so a
filter rejection wins over the `LIMIT_FILE_SIZE` check, which fires only
while the accepted stream is being buffered and its length exceeds
`maxFileSize`. -/
def multerStage : Option UploadedFile → MulterResult
  | none => .toHandler none
  | some f =>
    if fileFilterAccepts f then
      if f.size > maxFileSize then .sizeRejected else .toHandler (some f)
    else .typeRejected

/-- `result.species` of an upstream ranked match (fields that server.js
reads; `commonNames` and `description` may be absent from the JSON). -/
structure Species where
  commonNames : Option (List String)
  scientificNameWithoutAuthor : String
  description : Option String
deriving DecidableEq

/-- `images[i].url` of an upstream match: the medium-size URL read as
`url.m` on server.js line 358. -/
structure ImageUrlSet where
  m : String
deriving DecidableEq

/-- One entry of `result.images`. -/
structure MatchImage where
  url : ImageUrlSet
deriving DecidableEq

/-- One ranked match of the upstream payload (`response.data.results[i]`).
The numeric score is modelled as a rational, passed through unchanged. -/
structure RankedMatch where
  species : Species
  score : Rat
  images : Option (List MatchImage)
deriving DecidableEq

/-- `response.data`: the `results` array may be absent. -/
structure PayloadData where
  results : Option (List RankedMatch)
deriving DecidableEq

/-- Outcome of the axios POST to the upstream service.  `ok` is a 2xx
response (axios default `validateStatus`), carrying `response.data`
(possibly absent/null).  The other three constructors are the ways the
awaited call can throw, all landing in the handler's `catch` block:
a non-2xx HTTP status, the 30 s timeout (`ECONNABORTED`), or any other
network failure. -/
inductive UpstreamResult where
  | ok : Option PayloadData → UpstreamResult
  | httpError : Nat → UpstreamResult
  | timeout : UpstreamResult
  | networkFailure : UpstreamResult
deriving DecidableEq

/-- The condition `response.data && response.data.results &&
response.data.results.length > 0` (server.js line 343), lifted to the
upstream outcome (false whenever the call threw). -/
def upstreamHasMatch : UpstreamResult → Bool
  | .ok (some d) =>
    match d.results with
    | some (_ :: _) => true
    | _ => false
  | _ => false

/-- The caller-facing normalized record (`plantInfo` / the mock records):
all seven fields are always present by construction. -/
structure PlantInfo where
  name : String
  scientific_name : String
  description : String
  benefits : String
  warnings : String
  confidence : Rat
  image_url : String
deriving DecidableEq

/-- The fixed advisory `benefits` string (server.js line 354). -/
def benefitsText : String :=
  "Информация о пользе растения. Рекомендуется проконсультироваться с врачом перед использованием."

/-- The fixed advisory `warnings` string (server.js line 355). -/
def warningsText : String :=
  "Будьте осторожны при использовании растений. Убедитесь в правильности определения вида."

/-- The fixed fallback description (server.js line 353). -/
def descUnavailable : String := "Описание недоступно"

/-- `plantInfo` built from the top ranked match (server.js lines 348-360). -/
def plantInfoOf (r : RankedMatch) : PlantInfo :=
  ⟨(match r.species.commonNames with
    | some (c :: _) => c
    | _ => r.species.scientificNameWithoutAuthor),
   r.species.scientificNameWithoutAuthor,
   jsStringOr r.species.description descUnavailable,
   benefitsText,
   warningsText,
   r.score,
   (match r.images with
    | some (i :: _) => i.url.m
    | _ => "")⟩

/-- First mock record (server.js lines 373-381). -/
def mockPlantA : PlantInfo :=
  ⟨"Жасыл жапырақ",
   "Ficus elastica",
   "Бұл өсімдік үйде өсіруге өте қолайлы. Ол ауаны тазартады және оттегі береді.",
   "Өсімдік ауаны тазартады, оттегі береді және үйдегі ауа сапасын жақсартады. Стресс азайтады.",
   "Балалардың қолынан аулақ ұстаңыз. Кейбір адамдарда аллергия тудыруы мүмкін.",
   0.92,
   ""⟩

/-- Second mock record (server.js lines 382-390). -/
def mockPlantB : PlantInfo :=
  ⟨"Гүлді өсімдік",
   "Rosa canina",
   "Бұл гүлді өсімдік әдемі гүлдерімен танымал. Ол бақшада өте жақсы көрінеді.",
   "Гүлдері әдемі, ауаны тазартады. Бақшада өте жақсы көрінеді және табиғатты сүйеміз.",
   "Тікендері бар, абайлаңыз. Кейбір адамдарда аллергия тудыруы мүмкін.",
   0.88,
   ""⟩

/-- Third mock record (server.js lines 391-399). -/
def mockPlantC : PlantInfo :=
  ⟨"Деректеме өсімдік",
   "Monstera deliciosa",
   "Бұл өсімдік үлкен жапырақтарымен танымал. Ол үйде өте жақсы көрінеді.",
   "Ауаны тазартады, оттегі береді. Үйдегі ауа сапасын жақсартады және әдемі көрінеді.",
   "Балалардың қолынан аулақ ұстаңыз. Жапырақтары улы болуы мүмкін.",
   0.85,
   ""⟩

/-- The fixed three-record placeholder set (`mockPlants`, identical in the
zero-results branch lines 372-400 and in the catch branch lines 429-457). -/
def mockPlants : List PlantInfo := [mockPlantA, mockPlantB, mockPlantC]

/-- The `note` attached to placeholder responses (lines 408 and 466). -/
def mockNote : String := "Демонстрациялық деректер (PlantNet API қатаң талаптары)"

/-- `mockPlants[fileSize % mockPlants.length]` (lines 402-403 and 460-461).
The index is always `< 3`, so the `getD` default is never used. -/
def selectMock (fileSize : Nat) : PlantInfo :=
  mockPlants.getD (fileSize % mockPlants.length) mockPlantA

/-- The JSON body and status of an `/identify` response.  `result` is the
normalized record, `note` the placeholder notice, `error` the message of
an error body. -/
structure HttpResponse where
  status : Nat
  success : Bool
  result : Option PlantInfo
  note : Option String
  error : Option String
deriving DecidableEq

/-- The placeholder response, textually identical in the zero-results
branch (lines 405-409) and the catch branch (lines 463-467):
HTTP 200, `success:true`, size-selected mock record, `note` set. -/
def mockResponse (f : UploadedFile) : HttpResponse :=
  ⟨200, true, some (selectMock f.size), some mockNote, none⟩

/-- The body of the `POST /identify` route handler (server.js 243-469):
missing-file check (400), API-key check (500), then the upstream call,
whose outcome is normalized (top match) or replaced by the placeholder
response (zero matches, or any thrown error caught by the catch block). -/
def identifyHandler (file : Option UploadedFile) (apiKey : Option String)
    (upstream : UpstreamResult) : HttpResponse :=
  match file with
  | none => ⟨400, false, none, none, some "Изображение не найдено"⟩
  | some f =>
    if truthyKey apiKey then
      match upstream with
      | .ok (some d) =>
        match d.results with
        | some (r :: _) => ⟨200, true, some (plantInfoOf r), none, none⟩
        | _ => mockResponse f
      | .ok none => mockResponse f
      | .httpError _ => mockResponse f
      | .timeout => mockResponse f
      | .networkFailure => mockResponse f
    else ⟨500, false, none, none, some "PlantNet API ключ не настроен"⟩

/-- One full request/response cycle of `POST /identify`: the multer stage,
then either the route handler or the trailing error middleware
(server.js 538-558), which answers 400 only for `LIMIT_FILE_SIZE`
(a `MulterError`) and 500 for every other error — in particular for the
plain `Error` thrown by the fileFilter. -/
def processRequest (file : Option UploadedFile) (apiKey : Option String)
    (upstream : UpstreamResult) : HttpResponse :=
  match multerStage file with
  | .toHandler g => identifyHandler g apiKey upstream
  | .typeRejected => ⟨500, false, none, none, some "Только изображения разрешены"⟩
  | .sizeRejected =>
    ⟨400, false, none, none, some "Файл слишком большой. Максимальный размер: 10MB"⟩

/-- Whether the axios POST to the upstream service is executed for a
request: the handler must be reached with a file present and a truthy
API key. -/
def callsUpstream (file : Option UploadedFile) (apiKey : Option String) : Bool :=
  match multerStage file with
  | .toHandler (some _) => truthyKey apiKey
  | _ => false

/-- The content type attached to the outbound `images` form part
(server.js lines 290-313): for `application/octet-stream` uploads it is
re-inferred from the lower-cased filename extension. -/
def extSwitch (ext : String) : String :=
  if ext = "jpg" then "image/jpeg"
  else if ext = "jpeg" then "image/jpeg"
  else if ext = "png" then "image/png"
  else if ext = "gif" then "image/gif"
  else if ext = "bmp" then "image/bmp"
  else if ext = "webp" then "image/webp"
  else "image/jpeg"

/-- `contentType` computed by the handler before the upstream call. -/
def inferContentType (f : UploadedFile) : String :=
  if f.mimetype = "application/octet-stream" then
    extSwitch (strLower (lastExt f.originalname))
  else f.mimetype

/-- The `images` form part of the outbound request (lines 315-318). -/
structure OutboundPart where
  filename : String
  contentType : String
deriving DecidableEq

/-- Builds the outbound form part: `originalname || 'plant_image.jpg'`
and the (possibly re-inferred) content type. -/
def outboundPart (f : UploadedFile) : OutboundPart :=
  ⟨jsStringOr (some f.originalname) "plant_image.jpg", inferContentType f⟩

/-- Claim-side extension-to-media-type table, used to state what
"the image type inferred from that extension" means. -/
def extMime (e : String) : String :=
  if e = "jpg" ∨ e = "jpeg" then "image/jpeg"
  else if e = "png" then "image/png"
  else if e = "gif" then "image/gif"
  else if e = "bmp" then "image/bmp"
  else if e = "webp" then "image/webp"
  else ""

end Plantnet

namespace Plantnet

/-! ### Helper lemmas -/

theorem listLeads_append (a b : List Char) : listLeads a (a ++ b) = true := by
  induction a with
  | nil => rfl
  | cons x xs ih => simp [listLeads, ih]

theorem listEndsWith_append (a b : List Char) : listEndsWith (a ++ b) b = true := by
  unfold listEndsWith
  rw [List.reverse_append]
  exact listLeads_append _ _

theorem takeWhile_middle (p : Char → Bool) (l₁ : List Char) (a : Char) (l₂ : List Char)
    (h : ∀ x ∈ l₁, p x = true) (ha : p a = false) :
    (l₁ ++ a :: l₂).takeWhile p = l₁ := by
  induction l₁ with
  | nil => simp [List.takeWhile_cons, ha]
  | cons x xs ih =>
    have hx : p x = true := h x (List.mem_cons_self x xs)
    simp only [List.cons_append, List.takeWhile_cons, hx]
    have := ih (fun y hy => h y (List.mem_cons_of_mem x hy))
    simp [this]

theorem lastSegAfterDot_spec (pd ed : List Char) (hnd : '.' ∉ ed) :
    lastSegAfterDot (pd ++ '.' :: ed) = ed := by
  unfold lastSegAfterDot
  rw [List.reverse_append, List.reverse_cons, List.append_assoc, List.singleton_append]
  rw [takeWhile_middle _ ed.reverse '.' pd.reverse ?_ ?_]
  · exact List.reverse_reverse ed
  · intro x hx
    have hxm : x ∈ ed := List.mem_reverse.mp hx
    have : x ≠ '.' := fun h => hnd (h ▸ hxm)
    simpa using this
  · simp

theorem hasImageExt_of (name : String) (pd ed : List Char)
    (hname : name.data = pd ++ '.' :: ed)
    (he : String.mk (ed.map Char.toLower) ∈ imageExts) :
    hasImageExt name = true := by
  unfold hasImageExt
  rw [List.any_eq_true]
  refine ⟨String.mk (ed.map Char.toLower), he, ?_⟩
  show listEndsWith (name.data.map Char.toLower) ('.' :: ed.map Char.toLower) = true
  rw [hname, List.map_append, List.map_cons]
  rw [show Char.toLower '.' = '.' from rfl]
  exact listEndsWith_append _ _

theorem truthyKey_some (k : String) (hk : k ≠ "") : truthyKey (some k) = true := by
  simp [truthyKey, hk]

theorem multerStage_pass (f : UploadedFile) (hacc : fileFilterAccepts f = true)
    (hsz : f.size ≤ maxFileSize) : multerStage (some f) = .toHandler (some f) := by
  have : ¬ (f.size > maxFileSize) := Nat.not_lt.mpr hsz
  simp [multerStage, hacc, this]

theorem multerStage_type (f : UploadedFile) (hacc : fileFilterAccepts f = false) :
    multerStage (some f) = .typeRejected := by
  simp [multerStage, hacc]

theorem multerStage_size (f : UploadedFile) (hacc : fileFilterAccepts f = true)
    (hsz : maxFileSize < f.size) : multerStage (some f) = .sizeRejected := by
  simp [multerStage, hacc, hsz]

theorem identifyHandler_fallback (f : UploadedFile) (key : String) (hkey : key ≠ "")
    (u : UpstreamResult) (hu : upstreamHasMatch u = false) :
    identifyHandler (some f) (some key) u = mockResponse f := by
  have hk := truthyKey_some key hkey
  cases u with
  | ok d =>
    cases d with
    | none => simp [identifyHandler, hk]
    | some pd =>
      obtain ⟨res⟩ := pd
      cases res with
      | none => simp [identifyHandler, hk]
      | some l =>
        cases l with
        | nil => simp [identifyHandler, hk]
        | cons r rs => simp [upstreamHasMatch] at hu
  | httpError c => simp [identifyHandler, hk]
  | timeout => simp [identifyHandler, hk]
  | networkFailure => simp [identifyHandler, hk]

theorem processRequest_fallback (f : UploadedFile) (key : String) (u : UpstreamResult)
    (hacc : fileFilterAccepts f = true) (hsz : f.size ≤ maxFileSize)
    (hkey : key ≠ "") (hu : upstreamHasMatch u = false) :
    processRequest (some f) (some key) u = mockResponse f := by
  unfold processRequest
  rw [multerStage_pass f hacc hsz]
  exact identifyHandler_fallback f key hkey u hu

theorem processRequest_topMatch (f : UploadedFile) (key : String)
    (r : RankedMatch) (rs : List RankedMatch)
    (hacc : fileFilterAccepts f = true) (hsz : f.size ≤ maxFileSize) (hkey : key ≠ "") :
    processRequest (some f) (some key) (.ok (some ⟨some (r :: rs)⟩)) =
      ⟨200, true, some (plantInfoOf r), none, none⟩ := by
  simp [processRequest, multerStage_pass f hacc hsz, identifyHandler,
    truthyKey_some key hkey]

theorem processRequest_noKey (f : UploadedFile) (key : Option String) (u : UpstreamResult)
    (hacc : fileFilterAccepts f = true) (hsz : f.size ≤ maxFileSize)
    (hk : truthyKey key = false) :
    processRequest (some f) key u = ⟨500, false, none, none, some "PlantNet API ключ не настроен"⟩ := by
  simp [processRequest, multerStage_pass f hacc hsz, identifyHandler, hk]

theorem selectMock_cases (n : Nat) :
    (n % 3 = 0 → selectMock n = mockPlantA) ∧
    (n % 3 = 1 → selectMock n = mockPlantB) ∧
    (n % 3 = 2 → selectMock n = mockPlantC) := by
  have hlen : mockPlants.length = 3 := rfl
  refine ⟨fun h => ?_, fun h => ?_, fun h => ?_⟩ <;>
    (unfold selectMock; rw [hlen, h]; rfl)

end Plantnet

namespace Plantnet

/-! ### Claim theorems -/

/-- C1: for every `/identify` request whose file reaches the upstream call
(filter-accepted, within the size limit, key configured), when the call
times out, fails on the network, throws on a non-2xx status, or returns a
payload with zero ranked matches, the response is HTTP 200 with
`success:true`, the `note` field set, and the placeholder record at index
`size % 3` of the fixed three-record set; two uploads of equal byte length
taking this fallback path receive the same record. -/
theorem c1_fallback_mock_selection (f : UploadedFile) (key : String) (u : UpstreamResult)
    (hacc : fileFilterAccepts f = true) (hsz : f.size ≤ maxFileSize)
    (hkey : key ≠ "") (hu : upstreamHasMatch u = false) :
    (processRequest (some f) (some key) u).status = 200 ∧
    (processRequest (some f) (some key) u).success = true ∧
    (processRequest (some f) (some key) u).note = some mockNote ∧
    (processRequest (some f) (some key) u).result = some (selectMock f.size) ∧
    (f.size % 3 = 0 → selectMock f.size = mockPlantA) ∧
    (f.size % 3 = 1 → selectMock f.size = mockPlantB) ∧
    (f.size % 3 = 2 → selectMock f.size = mockPlantC) ∧
    (∀ (g : UploadedFile) (v : UpstreamResult),
      fileFilterAccepts g = true → g.size ≤ maxFileSize → upstreamHasMatch v = false →
      g.size = f.size →
      (processRequest (some g) (some key) v).result =
        (processRequest (some f) (some key) u).result) := by
  have hmain := processRequest_fallback f key u hacc hsz hkey hu
  rw [hmain]
  obtain ⟨h0, h1, h2⟩ := selectMock_cases f.size
  refine ⟨rfl, rfl, rfl, rfl, h0, h1, h2, ?_⟩
  intro g v hg hs hv hsize
  rw [processRequest_fallback g key v hg hs hkey hv]
  simp [mockResponse, hsize]

/-- C1 witness: a 4-byte JPEG upload on a timed-out upstream receives the
placeholder record selected by `4 % 3`. -/
theorem c1_witness :
    (processRequest (some ⟨"leaf.jpg", "image/jpeg", 4⟩) (some "k") .timeout).status = 200 ∧
    (processRequest (some ⟨"leaf.jpg", "image/jpeg", 4⟩) (some "k") .timeout).note = some mockNote ∧
    (processRequest (some ⟨"leaf.jpg", "image/jpeg", 4⟩) (some "k") .timeout).result =
      some (selectMock 4) := by
  have h := c1_fallback_mock_selection ⟨"leaf.jpg", "image/jpeg", 4⟩ "k" .timeout
    (by decide) (by decide) (by decide) (by decide)
  exact ⟨h.1, h.2.2.1, h.2.2.2.1⟩

/-- C2 counterexample: a `text/plain` upload is rejected by the fileFilter
with a plain `Error`, which the trailing error middleware answers with
HTTP 500, not the 400 the claim states. -/
theorem c2_counterexample :
    (processRequest (some ⟨"notes.txt", "text/plain", 5⟩) (some "k") .networkFailure).status = 500 ∧
    ((processRequest (some ⟨"notes.txt", "text/plain", 5⟩) (some "k") .networkFailure).status
      == 400) = false ∧
    (processRequest (some ⟨"notes.txt", "text/plain", 5⟩) (some "k") .networkFailure).success
      = false := by
  refine ⟨by decide, by decide, by decide⟩

/-- C2 (amended): every upload whose declared content type neither starts
with `image/` nor satisfies the octet-stream-plus-image-extension
accommodation is answered with HTTP 500 (not 400) and `success:false`,
and no outbound upstream call is made. -/
theorem c2_bad_type_rejected (f : UploadedFile) (key : Option String) (u : UpstreamResult)
    (h : fileFilterAccepts f = false) :
    (processRequest (some f) key u).status = 500 ∧
    (processRequest (some f) key u).success = false ∧
    callsUpstream (some f) key = false := by
  have hm := multerStage_type f h
  refine ⟨?_, ?_, ?_⟩ <;> simp [processRequest, callsUpstream, hm]

/-- C2 witness: a PDF upload is answered 500 with `success:false` and the
upstream is never called. -/
theorem c2_witness :
    (processRequest (some ⟨"doc.pdf", "application/pdf", 9⟩) (some "k") .timeout).status = 500 ∧
    (processRequest (some ⟨"doc.pdf", "application/pdf", 9⟩) (some "k") .timeout).success = false ∧
    callsUpstream (some ⟨"doc.pdf", "application/pdf", 9⟩) (some "k") = false :=
  c2_bad_type_rejected ⟨"doc.pdf", "application/pdf", 9⟩ (some "k") .timeout (by decide)

/-- C3 counterexample: an oversized upload with the credential absent is
rejected 400 by the size limit before the handler's key check can answer
500, so the claim fails as universally stated. -/
theorem c3_counterexample :
    (processRequest (some ⟨"big.jpg", "image/jpeg", 10485761⟩) none .networkFailure).status = 400 ∧
    ((processRequest (some ⟨"big.jpg", "image/jpeg", 10485761⟩) none .networkFailure).status
      == 500) = false := by
  refine ⟨by decide, by decide⟩

/-- C3 (amended): for every request carrying a file within the 10 MiB
limit, when the upstream credential is absent the response is HTTP 500
with `success:false` and the upstream is never called (a filter-rejected
type also yields 500 without an upstream call). -/
theorem c3_missing_key_500 (f : UploadedFile) (u : UpstreamResult)
    (hsz : f.size ≤ maxFileSize) :
    (processRequest (some f) none u).status = 500 ∧
    (processRequest (some f) none u).success = false ∧
    callsUpstream (some f) none = false := by
  cases hacc : fileFilterAccepts f with
  | false =>
    have hm := multerStage_type f hacc
    refine ⟨?_, ?_, ?_⟩ <;> simp [processRequest, callsUpstream, hm]
  | true =>
    have hm := multerStage_pass f hacc hsz
    have h5 := processRequest_noKey f none u hacc hsz rfl
    rw [h5]
    refine ⟨rfl, rfl, ?_⟩
    simp [callsUpstream, hm, truthyKey]

/-- C3 witness: a small JPEG with no credential gets 500 and no upstream
call. -/
theorem c3_witness :
    (processRequest (some ⟨"a.jpg", "image/jpeg", 3⟩) none .timeout).status = 500 ∧
    (processRequest (some ⟨"a.jpg", "image/jpeg", 3⟩) none .timeout).success = false ∧
    callsUpstream (some ⟨"a.jpg", "image/jpeg", 3⟩) none = false :=
  c3_missing_key_500 ⟨"a.jpg", "image/jpeg", 3⟩ .timeout (by decide)

/-- C4: when the upstream payload has at least one ranked match, the
response's `scientific_name` equals the top match's
`scientificNameWithoutAuthor` verbatim and `confidence` equals its score
unmodified, in a 200 `success:true` response. -/
theorem c4_top_match_passthrough (f : UploadedFile) (key : String)
    (r : RankedMatch) (rs : List RankedMatch)
    (hacc : fileFilterAccepts f = true) (hsz : f.size ≤ maxFileSize) (hkey : key ≠ "") :
    ((processRequest (some f) (some key) (.ok (some ⟨some (r :: rs)⟩))).result).map
        PlantInfo.scientific_name = some r.species.scientificNameWithoutAuthor ∧
    ((processRequest (some f) (some key) (.ok (some ⟨some (r :: rs)⟩))).result).map
        PlantInfo.confidence = some r.score ∧
    (processRequest (some f) (some key) (.ok (some ⟨some (r :: rs)⟩))).status = 200 ∧
    (processRequest (some f) (some key) (.ok (some ⟨some (r :: rs)⟩))).success = true := by
  rw [processRequest_topMatch f key r rs hacc hsz hkey]
  refine ⟨?_, ?_, rfl, rfl⟩ <;> simp [plantInfoOf]

/-- C4 witness: a concrete single-match payload passes its scientific name
and score through unchanged. -/
theorem c4_witness :
    ((processRequest (some ⟨"r.jpg", "image/jpeg", 2⟩) (some "k")
        (.ok (some ⟨some [⟨⟨some ["Шиповник"], "Rosa canina", some "txt"⟩, 0.77, none⟩]⟩))).result).map
        PlantInfo.scientific_name = some "Rosa canina" ∧
    ((processRequest (some ⟨"r.jpg", "image/jpeg", 2⟩) (some "k")
        (.ok (some ⟨some [⟨⟨some ["Шиповник"], "Rosa canina", some "txt"⟩, 0.77, none⟩]⟩))).result).map
        PlantInfo.confidence = some (0.77 : Rat) := by
  have h := c4_top_match_passthrough ⟨"r.jpg", "image/jpeg", 2⟩ "k"
    ⟨⟨some ["Шиповник"], "Rosa canina", some "txt"⟩, 0.77, none⟩ []
    (by decide) (by decide) (by decide)
  exact ⟨h.1, h.2.1⟩

/-- C5 counterexample: a match whose `description` is present but is the
empty string (falsy in JS) is normalized to the fixed fallback string, so
the claim's "description equals the match's description text when
present" fails. -/
theorem c5_counterexample :
    ((processRequest (some ⟨"a.jpg", "image/jpeg", 7⟩) (some "k")
        (.ok (some ⟨some [⟨⟨some ["Аты"], "Testus plantus", some ""⟩, 0.5, none⟩]⟩))).result).map
        PlantInfo.description = some descUnavailable ∧
    (((processRequest (some ⟨"a.jpg", "image/jpeg", 7⟩) (some "k")
        (.ok (some ⟨some [⟨⟨some ["Аты"], "Testus plantus", some ""⟩, 0.5, none⟩]⟩))).result).map
        PlantInfo.description == some "") = false ∧
    ((descUnavailable == "") = false) := by
  refine ⟨by decide, by decide, by decide⟩

/-- C5 (amended): for a payload with a top ranked match, `name` is the
first common name when the list is non-empty, else the scientific name;
`description` is the match's description text when present AND non-empty
(JS truthiness), else the fixed fallback string; `image_url` is the
medium URL of the first image when any exist, else empty. -/
theorem c5_normalizer_fields (f : UploadedFile) (key : String)
    (r : RankedMatch) (rs : List RankedMatch)
    (hacc : fileFilterAccepts f = true) (hsz : f.size ≤ maxFileSize) (hkey : key ≠ "") :
    ∃ p : PlantInfo,
      (processRequest (some f) (some key) (.ok (some ⟨some (r :: rs)⟩))).result = some p ∧
      (∀ c cs, r.species.commonNames = some (c :: cs) → p.name = c) ∧
      ((r.species.commonNames = none ∨ r.species.commonNames = some []) →
        p.name = r.species.scientificNameWithoutAuthor) ∧
      (∀ d, r.species.description = some d → d ≠ "" → p.description = d) ∧
      ((r.species.description = none ∨ r.species.description = some "") →
        p.description = descUnavailable) ∧
      (∀ i tl, r.images = some (i :: tl) → p.image_url = i.url.m) ∧
      ((r.images = none ∨ r.images = some []) → p.image_url = "") := by
  refine ⟨plantInfoOf r, ?_, ?_, ?_, ?_, ?_, ?_, ?_⟩
  · rw [processRequest_topMatch f key r rs hacc hsz hkey]
  · intro c cs h; simp [plantInfoOf, h]
  · rintro (h | h) <;> simp [plantInfoOf, h]
  · intro d h hd; simp [plantInfoOf, jsStringOr, h, hd]
  · rintro (h | h) <;> simp [plantInfoOf, jsStringOr, h]
  · intro i tl h; simp [plantInfoOf, h]
  · rintro (h | h) <;> simp [plantInfoOf, h]

/-- C5 witness: a concrete match with a common name list, a non-empty
description and one image is normalized to its first common name. -/
theorem c5_witness :
    ((processRequest (some ⟨"b.jpg", "image/jpeg", 11⟩) (some "k")
        (.ok (some ⟨some [⟨⟨some ["Алма ағашы"], "Malus domestica", some "Сипаттама"⟩, 0.9,
          some [⟨⟨"http://img.example/m.jpg"⟩⟩]⟩]⟩))).result).map
        PlantInfo.name = some "Алма ағашы" := by
  obtain ⟨p, hp, hname, -, -, -, -, -⟩ := c5_normalizer_fields ⟨"b.jpg", "image/jpeg", 11⟩ "k"
    ⟨⟨some ["Алма ағашы"], "Malus domestica", some "Сипаттама"⟩, 0.9,
      some [⟨⟨"http://img.example/m.jpg"⟩⟩]⟩ []
    (by decide) (by decide) (by decide)
  rw [hp]
  show some p.name = some "Алма ағашы"
  rw [hname "Алма ағашы" [] rfl]

/-- C6: a request with no file part is answered 400 with `success:false`
and the upstream is never contacted, whatever the key and the (unused)
upstream oracle. -/
theorem c6_missing_file (key : Option String) (u : UpstreamResult) :
    (processRequest none key u).status = 400 ∧
    (processRequest none key u).success = false ∧
    callsUpstream none key = false :=
  ⟨rfl, rfl, rfl⟩

/-- C7: every 200 response carries a result record (whose seven fields are
present by construction of `PlantInfo`), and whenever the upstream call is
made the response is 200 — so non-200 statuses arise only from local
validation before any upstream call, and no upstream failure is ever
surfaced as an error response. -/
theorem c7_success_invariant (file : Option UploadedFile) (key : Option String)
    (u : UpstreamResult) :
    ((processRequest file key u).status = 200 →
      (processRequest file key u).success = true ∧
      ((processRequest file key u).result).isSome = true) ∧
    (callsUpstream file key = true → (processRequest file key u).status = 200) := by
  cases file with
  | none =>
    exact ⟨fun h => by simp [processRequest, multerStage, identifyHandler] at h,
           fun h => by simp [callsUpstream, multerStage] at h⟩
  | some f =>
    cases hacc : fileFilterAccepts f with
    | false =>
      have hm := multerStage_type f hacc
      exact ⟨fun h => by simp [processRequest, hm] at h,
             fun h => by simp [callsUpstream, hm] at h⟩
    | true =>
      by_cases hsz : f.size ≤ maxFileSize
      · have hm := multerStage_pass f hacc hsz
        cases hk : truthyKey key with
        | false =>
          have h5 := processRequest_noKey f key u hacc hsz hk
          rw [h5]
          exact ⟨fun h => by simp at h,
                 fun h => by simp [callsUpstream, hm, hk] at h⟩
        | true =>
          have hresp : (processRequest (some f) key u).status = 200 ∧
              (processRequest (some f) key u).success = true ∧
              ((processRequest (some f) key u).result).isSome = true := by
            cases u with
            | ok d =>
              cases d with
              | none => simp [processRequest, hm, identifyHandler, hk, mockResponse]
              | some pd =>
                obtain ⟨res⟩ := pd
                cases res with
                | none => simp [processRequest, hm, identifyHandler, hk, mockResponse]
                | some l =>
                  cases l with
                  | nil => simp [processRequest, hm, identifyHandler, hk, mockResponse]
                  | cons r rs => simp [processRequest, hm, identifyHandler, hk]
            | httpError c => simp [processRequest, hm, identifyHandler, hk, mockResponse]
            | timeout => simp [processRequest, hm, identifyHandler, hk, mockResponse]
            | networkFailure => simp [processRequest, hm, identifyHandler, hk, mockResponse]
          exact ⟨fun _ => ⟨hresp.2.1, hresp.2.2⟩, fun _ => hresp.1⟩
      · have hm := multerStage_size f hacc (Nat.lt_of_not_le hsz)
        exact ⟨fun h => by simp [processRequest, hm] at h,
               fun h => by simp [callsUpstream, hm] at h⟩

/-- C7 witness: a well-formed request over a timed-out upstream yields a
successful response with a result present. -/
theorem c7_witness :
    (processRequest (some ⟨"w.jpg", "image/jpeg", 9⟩) (some "k") .timeout).success = true ∧
    ((processRequest (some ⟨"w.jpg", "image/jpeg", 9⟩) (some "k") .timeout).result).isSome
      = true :=
  (c7_success_invariant (some ⟨"w.jpg", "image/jpeg", 9⟩) (some "k") .timeout).1 (by decide)

/-- C8: an `application/octet-stream` upload whose filename ends (case-
insensitively) in a known image extension is accepted by the fileFilter,
and the content type attached to the outbound form part is the image type
inferred from that extension, not the declared binary type. -/
theorem c8_flutter_accommodation (f : UploadedFile) (pd ed : List Char)
    (hmime : f.mimetype = "application/octet-stream")
    (hname : f.originalname.data = pd ++ '.' :: ed)
    (hnd : '.' ∉ ed)
    (he : String.mk (ed.map Char.toLower) ∈ imageExts) :
    fileFilterAccepts f = true ∧
    (outboundPart f).contentType = extMime (String.mk (ed.map Char.toLower)) ∧
    ((outboundPart f).contentType == "application/octet-stream") = false := by
  have hne : f.originalname ≠ "" := by
    intro h0
    rw [h0] at hname
    simp at hname
  have hflut : isFlutterImage f = true := by
    have h1 : (f.mimetype == "application/octet-stream") = true := by simp [hmime]
    have h2 : (f.originalname != "") = true := by simp [hne]
    have h3 := hasImageExt_of f.originalname pd ed hname he
    simp [isFlutterImage, h1, h2, h3]
  have hacc : fileFilterAccepts f = true := by simp [fileFilterAccepts, hflut]
  have hct : (outboundPart f).contentType = extSwitch (String.mk (ed.map Char.toLower)) := by
    show inferContentType f = _
    unfold inferContentType
    rw [if_pos hmime]
    have hlast : lastExt f.originalname = String.mk ed := by
      unfold lastExt
      rw [hname, lastSegAfterDot_spec pd ed hnd]
    rw [hlast]
    rfl
  refine ⟨hacc, ?_, ?_⟩
  · rw [hct]
    simp only [imageExts, List.mem_cons, List.not_mem_nil, or_false] at he
    rcases he with h | h | h | h | h | h <;> rw [h] <;> decide
  · rw [hct]
    simp only [imageExts, List.mem_cons, List.not_mem_nil, or_false] at he
    rcases he with h | h | h | h | h | h <;> rw [h] <;> decide

/-- C8 witness: `photo.PNG` declared as `application/octet-stream` is
accepted and sent upstream with the content type inferred from `png`. -/
theorem c8_witness :
    fileFilterAccepts ⟨"photo.PNG", "application/octet-stream", 12⟩ = true ∧
    (outboundPart ⟨"photo.PNG", "application/octet-stream", 12⟩).contentType =
      extMime (String.mk (['P', 'N', 'G'].map Char.toLower)) ∧
    ((outboundPart ⟨"photo.PNG", "application/octet-stream", 12⟩).contentType ==
      "application/octet-stream") = false :=
  c8_flutter_accommodation ⟨"photo.PNG", "application/octet-stream", 12⟩
    "photo".data ['P', 'N', 'G'] rfl (by decide) (by decide) (by decide)

/-- C9 counterexample: an oversized upload whose content type also fails
the filter is rejected by the fileFilter (consulted before the size limit
can fire) and answered 500, so the claim's unconditional 400 fails. -/
theorem c9_counterexample :
    (processRequest (some ⟨"huge.txt", "text/plain", 10485761⟩) (some "k") .timeout).status
      = 500 ∧
    ((processRequest (some ⟨"huge.txt", "text/plain", 10485761⟩) (some "k") .timeout).status
      == 400) = false := by
  refine ⟨by decide, by decide⟩

/-- C9 (amended): every upload exceeding 10 MiB that passes the
content-type filter is answered 400 with `success:false`, and no outbound
call is attempted. -/
theorem c9_size_limit (f : UploadedFile) (key : Option String) (u : UpstreamResult)
    (hacc : fileFilterAccepts f = true) (hsz : maxFileSize < f.size) :
    (processRequest (some f) key u).status = 400 ∧
    (processRequest (some f) key u).success = false ∧
    callsUpstream (some f) key = false := by
  have hm := multerStage_size f hacc hsz
  refine ⟨?_, ?_, ?_⟩ <;> simp [processRequest, callsUpstream, hm]

/-- C9 witness: a 10 MiB + 1 byte PNG is answered 400 and the upstream is
never called. -/
theorem c9_witness :
    (processRequest (some ⟨"big.png", "image/png", 10485761⟩) (some "k") .timeout).status = 400 ∧
    (processRequest (some ⟨"big.png", "image/png", 10485761⟩) (some "k") .timeout).success
      = false ∧
    callsUpstream (some ⟨"big.png", "image/png", 10485761⟩) (some "k") = false :=
  c9_size_limit ⟨"big.png", "image/png", 10485761⟩ (some "k") .timeout (by decide) (by decide)

/-- C10: the missing-file check precedes the missing-credential check: a
request with no file part is answered 400 with the missing-file message
for every key configuration — including an absent key — never 500. -/
theorem c10_file_before_key (key : Option String) (u : UpstreamResult) :
    (processRequest none key u).status = 400 ∧
    (processRequest none key u).error = some "Изображение не найдено" :=
  ⟨rfl, rfl⟩

end Plantnet
